import Mathlib

/-!
# Verification of the HTTPRoute reconciler

Shallow embedding of `controllers/reconcilers/grafana/http_route_reconciler.go`
(grafana-operator).  Pure Go functions become Lean functions; the Kubernetes
client is modelled as an explicit store argument; the single possible runtime
panic (a nil-pointer dereference of a parent reference's namespace pointer) is
modelled by an `Option` result, `none` standing for the panic.

Identifier notes: the Go source of this file is partially garbled — inside
`reconcileIngress` and `getHttpRouteAdminURL` the routing object is referred to
both as `httpRoute` and as `ingress`, and the spec builder is called
`getIngressSpec` at its call site while the file defines `getHttpRouteSpec`.
The embedding unifies these into the single routing object and the builder
that the file actually defines.
-/

namespace GrafanaOperator

/-- `k8s.io/apimachinery/pkg/util/intstr.IntOrString`: a tagged union of an
integer and a string, used for ports. -/
inductive IntOrString where
  | int (n : Int)
  | str (s : String)
deriving DecidableEq

/-- The `IntVal` field of an `IntOrString` (zero when the string form is active,
as in Go where the unused field of the union stays zero-valued). -/
def IntOrString.intVal : IntOrString → Int
  | .int n => n
  | .str _ => 0

/-- The `StrVal` field of an `IntOrString` (empty when the int form is active). -/
def IntOrString.strVal : IntOrString → String
  | .int _ => ""
  | .str s => s

/-- Decimal digits to a natural number; `none` at the first non-digit. -/
def digitsToNat (acc : Nat) : List Char → Option Nat
  | [] => some acc
  | c :: cs =>
      if c.isDigit then digitsToNat (10 * acc + (c.toNat - 48)) cs else none

/-- `strconv.Atoi`: an optional sign followed by at least one decimal digit;
anything else is a parse error (`none`). -/
def atoi (s : String) : Option Int :=
  match s.data with
  | [] => none
  | '+' :: c :: cs =>
      if c.isDigit then (digitsToNat 0 (c :: cs)).map (fun n => (n : Int))
      else none
  | '-' :: c :: cs =>
      if c.isDigit then (digitsToNat 0 (c :: cs)).map (fun n => -(n : Int))
      else none
  | c :: cs =>
      if c.isDigit then (digitsToNat 0 (c :: cs)).map (fun n => (n : Int))
      else none

/-- `IntOrString.IntValue()`: the int value, or `strconv.Atoi` of the string
(0 when the string does not parse as an integer). -/
def IntOrString.intValue : IntOrString → Int
  | .int n => n
  | .str s => (atoi s).getD 0

/-- `intstr.FromInt`. -/
def intstrFromInt (n : Int) : IntOrString := .int n

/-- A gateway-API `ParentReference`: `Namespace` is a pointer in Go
(`*v2.Namespace`), hence `Option`; `Name` is a plain string. -/
structure ParentRef where
  ns : Option String
  name : String
deriving DecidableEq

/-- One entry of `Gateway.Status.Addresses`. -/
structure GatewayAddress where
  value : String
deriving DecidableEq

/-- The part of `v2.Gateway` read by the resolver: its status address list.
(The source also iterates `gw.Spec.Listeners` with an empty loop body — a
no-op — so listeners are not modelled.) -/
structure Gateway where
  addresses : List GatewayAddress
deriving DecidableEq

/-- One entry of the routing object's `Status.LoadBalancer.Ingress` list:
an IP and/or a hostname. -/
structure LBIngress where
  ip : String
  hostname : String
deriving DecidableEq

/-- A backend reference of an HTTPRoute rule.  `Port` is `*v2.PortNumber` in
the gateway API — a pointer to a *numeric* port; the gateway API has no named
backend-port form. -/
structure BackendRef where
  name : String
  ns : String
  port : Option Int
deriving DecidableEq

/-- Path match types; the source uses only `v2.PathMatchPathPrefix`. -/
inductive PathMatchType where
  | prefixPath
  | exactPath
deriving DecidableEq

/-- `v2.HTTPPathMatch` (both fields are pointers in Go). -/
structure HTTPPathMatch where
  matchType : PathMatchType
  value : String
deriving DecidableEq

/-- `v2.HTTPRouteMatch`: only the path match is used by the source. -/
structure HTTPRouteMatch where
  path : Option HTTPPathMatch
deriving DecidableEq

/-- `v2.HTTPRouteRule`: backend references and matches (`routeMatches` maps
the Go field `Matches`; `matches` is reserved syntax in Lean). -/
structure HTTPRouteRule where
  backendRefs : List BackendRef
  routeMatches : List HTTPRouteMatch
deriving DecidableEq

/-- `v2.HTTPRouteSpec`: hostnames, parent references, rules. -/
structure HTTPRouteSpec where
  hostnames : List String
  parentRefs : List ParentRef
  rules : List HTTPRouteRule
deriving DecidableEq

/-- The routing object's status: its load-balancer ingress list (the list the
source reads as `Status.LoadBalancer.Ingress`). -/
structure RouteStatus where
  loadBalancer : List LBIngress
deriving DecidableEq

/-- The routing object (HTTPRoute): identity, labels, owner reference, spec
and status.  The owner reference is modelled as the owning descriptor's name. -/
structure HTTPRoute where
  name : String
  ns : String
  labels : List (String × String)
  owner : Option String
  spec : HTTPRouteSpec
  status : RouteStatus
deriving DecidableEq

/-- `v1.ServiceBackendPort` (networking/v1): numeric-or-named backend port.
Unused fields stay zero-valued as in Go. -/
structure ServiceBackendPort where
  number : Int
  name : String
deriving DecidableEq

/-- The descriptor's status fields written by this reconciler: the admin URL
and the "InvalidMerge/Ingress" condition.  The condition is modelled as
`some msg` when set (status true, message `msg`) and `none` when absent. -/
structure GrafanaStatus where
  adminURL : String
  invalidMergeIngress : Option String
deriving DecidableEq

/-- Modelled from the spec: the raw override fragment (`cr.Spec.Ingress`),
whose merge behaviour (`v1beta1.Merge`, not part of the given source) is
described in the spec — an empty override is the identity, a structurally
compatible override patches fields (override fields take precedence, absent
fields are preserved), and a structurally incompatible fragment fails with an
error message. -/
inductive OverrideFragment where
  | empty
  | patch (hostnames : Option (List String)) (parentRefs : Option (List ParentRef))
  | incompatible (msg : String)
deriving DecidableEq

/-- Whether the override fragment is structurally compatible. -/
def OverrideFragment.compatible : OverrideFragment → Bool
  | .incompatible _ => false
  | _ => true

/-- The desired-state descriptor (`v1beta1.Grafana`) — the fields this
reconciler reads.  `hasHttpRoute` models `cr.Spec.HttpRoute != nil`;
`preferIngress` models `cr.PreferIngress()`; `port` models the numeric
Grafana port (`GetGrafanaPort`, defined outside the given source — modelled
from the spec as the descriptor's numeric target port). -/
structure Grafana where
  name : String
  ns : String
  hasHttpRoute : Bool
  preferIngress : Bool
  ingressOverride : OverrideFragment
  labels : List (String × String)
  port : Int
  status : GrafanaStatus
deriving DecidableEq

/-- A service identity (name/namespace). -/
structure Service where
  name : String
  ns : String
deriving DecidableEq

/-- Modelled from the spec: `model.GetGrafanaService` (not part of the given
source) returns the deterministic identity of the Grafana service for the
descriptor. -/
def GetGrafanaService (cr : Grafana) : Service :=
  { name := cr.name ++ "-service", ns := cr.ns }

/-- Modelled from the spec: `GetGrafanaPort` (not part of the given source)
returns the descriptor's numeric target port. -/
def GetGrafanaPort (cr : Grafana) : Int := cr.port

/-- Source: `GetHttpRouteTargetPort` — always the integer form. -/
def GetHttpRouteTargetPort (cr : Grafana) : IntOrString :=
  intstrFromInt (GetGrafanaPort cr)

/-- Source (`getHttpRouteSpec`, lines 185–191): the local `assignedPort`
value — numeric when the int representation is positive, named when the
string representation is non-empty.  The source computes this value but never
uses it: the emitted spec takes `servicePort` instead. -/
def assignedBackendPort (port : IntOrString) : ServiceBackendPort :=
  { number := if 0 < port.intVal then port.intVal else 0
    name := if port.strVal ≠ "" then port.strVal else "" }

/-- Source: the body of `getHttpRouteSpec` with the service identity and the
port abstracted as parameters.  Emits exactly one rule with one backend
reference (port `servicePort = PortNumber(port.IntValue())`, always numeric)
and one match with a prefix path match at `"/"`. -/
def buildRouteSpec (serviceName serviceNs : String) (port : IntOrString) :
    HTTPRouteSpec :=
  let servicePort : Int := port.intValue
  { hostnames := []
    parentRefs := []
    rules := [
      { backendRefs := [
          { name := serviceName, ns := serviceNs, port := some servicePort } ]
        routeMatches := [
          { path := some { matchType := .prefixPath, value := "/" } } ] } ] }

/-- Source: `getHttpRouteSpec`. -/
def getHttpRouteSpec (cr : Grafana) : HTTPRouteSpec :=
  buildRouteSpec (GetGrafanaService cr).name (GetGrafanaService cr).ns
    (GetHttpRouteTargetPort cr)

/-- The abstract object store for `client.Get` on gateways: namespace and name
to a gateway, or a fetch error. -/
abbrev GwStore := String → String → Except Unit Gateway

/-- Source (`getHttpRouteAdminURL`): `hostname` is set to the first entry of
the hostnames list when the list is non-empty, else stays `""`. -/
def firstHostname : List String → String
  | [] => ""
  | h :: _ => h

/-- Source (`getHttpRouteAdminURL`): the scan of `gw.Status.Addresses` —
the first non-empty address value (the loop breaks at the first non-empty
value), `""` when there is none. -/
def firstAddressValue : List GatewayAddress → String
  | [] => ""
  | a :: rest => if a.value ≠ "" then a.value else firstAddressValue rest

/-- Source (`getHttpRouteAdminURL`): the scan of the routing object's
load-balancer ingress list.  Returns the first non-empty hostname (the loop
breaks there); otherwise `loadBalancerIP` is overwritten by every non-empty
IP, so the accumulator ends as the *last* non-empty IP (or the initial
accumulator when there is none). -/
def scanLoadBalancer (acc : String) : List LBIngress → String
  | [] => acc
  | e :: rest =>
      if e.hostname ≠ "" then e.hostname
      else scanLoadBalancer (if e.ip ≠ "" then e.ip else acc) rest

/-- The gateway with zero value (`&v2.Gateway{}`), used when no parent
reference exists (the fetch never runs and `gw` keeps its zero value). -/
def emptyGateway : Gateway := { addresses := [] }

/-- Source (`getHttpRouteAdminURL`), the part after the gateway fetch:
if no explicit hostname, take the first non-empty gateway address; if still
none, scan the load-balancer list; finally compose `"<protocol>://<host>"`
with protocol fixed to `"http"`, or return `""` when no host was found. -/
def resolveWithGateway (gw : Gateway) (hostname0 : String) (rt : HTTPRoute) :
    String :=
  let protocol := "http"
  let h1 :=
    if hostname0 = "" then
      (let loadBalanceIP := firstAddressValue gw.addresses;
       if loadBalanceIP ≠ "" then loadBalanceIP else hostname0)
    else hostname0
  -- the TLS-detection loop over gw.Spec.Listeners in the source has an
  -- empty body: protocol stays "http"
  let h2 :=
    if h1 = "" then scanLoadBalancer "" rt.status.loadBalancer else h1
  if h2 ≠ "" then protocol ++ "://" ++ h2 else ""

/-- Source: `getHttpRouteAdminURL`.  `none` models the nil-pointer panic on
`*pr.Namespace` (the namespace pointer of the first parent reference is
dereferenced without a nil check); `some ""` is returned for a nil routing
object and — after logging — for a gateway fetch error. -/
def getHttpRouteAdminURL (store : GwStore) (route : Option HTTPRoute) :
    Option String :=
  match route with
  | none => some ""
  | some rt =>
    let hostname0 := firstHostname rt.spec.hostnames
    match rt.spec.parentRefs with
    | [] => some (resolveWithGateway emptyGateway hostname0 rt)
    | pr :: _ =>
      match pr.ns with
      | none => none
      | some prNs =>
        match store prNs pr.name with
        | .error _ => some ""
        | .ok gw => some (resolveWithGateway gw hostname0 rt)

/-- Modelled from the spec: `v1beta1.Merge` (not part of the given source) —
empty override is the identity; a compatible patch overrides the fields it
carries and preserves the rest; an incompatible fragment fails with its
message. -/
def Merge (obj : HTTPRoute) : OverrideFragment → Except String HTTPRoute
  | .empty => .ok obj
  | .patch hs prs =>
      .ok { obj with
              spec := { obj.spec with
                          hostnames := hs.getD obj.spec.hostnames
                          parentRefs := prs.getD obj.spec.parentRefs } }
  | .incompatible msg => .error msg

/-- Modelled from the spec: `model.SetInheritedLabels` (not part of the given
source) — the descriptor's labels are copied verbatim onto the object; object
labels whose key is not among the descriptor's are left untouched. -/
def setInheritedLabels (objLabels crLabels : List (String × String)) :
    List (String × String) :=
  crLabels ++ objLabels.filter (fun kv => decide (kv.1 ∉ crLabels.map Prod.fst))

/-- Source: `setInvalidMergeCondition(cr, "Ingress", err)` — records the merge
failure (condition status true with the error text) on the descriptor. -/
def setInvalidMergeCondition (st : GrafanaStatus) (msg : String) :
    GrafanaStatus :=
  { st with invalidMergeIngress := some msg }

/-- Source: `removeInvalidMergeCondition(cr, "Ingress")` — clears the merge
condition. -/
def removeInvalidMergeCondition (st : GrafanaStatus) : GrafanaStatus :=
  { st with invalidMergeIngress := none }

/-- Modelled from the spec: `model.GetGrafanaHttpRoute` (not part of the given
source) — the fresh routing object with deterministic identity derived from
the descriptor and zero-valued spec and status. -/
def GetGrafanaHttpRoute (cr : Grafana) : HTTPRoute :=
  { name := cr.name ++ "-route", ns := cr.ns, labels := [], owner := none
    spec := { hostnames := [], parentRefs := [], rules := [] }
    status := { loadBalancer := [] } }

/-- Source: the mutation closure passed to `CreateOrUpdate` — overwrite the
spec with the builder's output, merge the override (propagating a merge error
after the caller records the condition), set the controller (owner) reference
to the descriptor, apply inherited labels.  `SetControllerReference` is
modelled as infallible (its scheme-registration failure mode is outside the
given source). -/
def mutateHttpRoute (cr : Grafana) (obj : HTTPRoute) : Except String HTTPRoute :=
  let obj1 := { obj with spec := getHttpRouteSpec cr }
  match Merge obj1 cr.ingressOverride with
  | .error e => .error e
  | .ok obj2 =>
      .ok { obj2 with
              owner := some cr.name
              labels := setInheritedLabels obj2.labels cr.labels }

/-- Result of the idempotent upsert: whether a mutation was persisted, and the
object as stored afterwards. -/
structure UpsertResult where
  mutated : Bool
  stored : HTTPRoute
deriving DecidableEq

/-- Modelled from the spec: `controllerutil.CreateOrUpdate` — fetch-or-new;
apply the mutation function; on its error persist nothing; otherwise create
the object when absent, or update it exactly when the mutated object differs
from the live one (no-op upsert when equal). -/
def createOrUpdate (live : Option HTTPRoute) (fresh : HTTPRoute)
    (f : HTTPRoute → Except String HTTPRoute) : Except String UpsertResult :=
  match live with
  | none => (f fresh).map fun o => { mutated := true, stored := o }
  | some l => (f l).map fun o => { mutated := decide (o ≠ l), stored := o }

/-- The live-or-fresh object the mutation closure runs on. -/
def baseObject (cr : Grafana) (live : Option HTTPRoute) : HTTPRoute :=
  live.getD (GetGrafanaHttpRoute cr)

/-- `v1beta1.OperatorStageStatus` values returned by the reconciler. -/
inductive OperatorStageResult where
  | success
  | inProgress
  | failed
deriving DecidableEq

/-- The observable outcome of one `reconcileIngress` call: the stage, the
error message (if any), the descriptor's status afterwards, the stored routing
object afterwards, and whether the upsert mutated it. -/
structure ReconcileOutcome where
  stage : OperatorStageResult
  errMsg : Option String
  status : GrafanaStatus
  stored : Option HTTPRoute
  mutated : Bool
deriving DecidableEq

/-- Source: `reconcileIngress`.  `none` models the nil-pointer panic inside
endpoint resolution; every non-panicking path yields `some` outcome.
Control flow follows the source: no route spec on the descriptor → Success;
upsert with the mutation closure (a merge error sets the condition, aborts the
upsert and returns Failed with that error); then, only when this exposure mode
is preferred: resolve the admin URL, report InProgress when the load-balancer
list is empty, Failed when the resolved URL is empty, else write the URL into
the descriptor's status and report Success. -/
def reconcileIngress (store : GwStore) (cr : Grafana) (live : Option HTTPRoute) :
    Option ReconcileOutcome :=
  if cr.hasHttpRoute = false then
    some { stage := .success, errMsg := none, status := cr.status
           stored := live, mutated := false }
  else
    match createOrUpdate live (GetGrafanaHttpRoute cr) (mutateHttpRoute cr) with
    | .error e =>
        some { stage := .failed, errMsg := some e
               status := setInvalidMergeCondition cr.status e
               stored := live, mutated := false }
    | .ok res =>
      let st1 := removeInvalidMergeCondition cr.status
      if cr.preferIngress = true then
        match getHttpRouteAdminURL store (some res.stored) with
        | none => none
        | some adminURL =>
          if res.stored.status.loadBalancer = [] then
            some { stage := .inProgress
                   errMsg := some "ingress is not ready yet"
                   status := st1, stored := some res.stored
                   mutated := res.mutated }
          else if adminURL = "" then
            some { stage := .failed
                   errMsg := some "ingress spec is incomplete"
                   status := st1, stored := some res.stored
                   mutated := res.mutated }
          else
            some { stage := .success, errMsg := none
                   status := { st1 with adminURL := adminURL }
                   stored := some res.stored, mutated := res.mutated }
      else
        some { stage := .success, errMsg := none, status := st1
               stored := some res.stored, mutated := res.mutated }

/-- The first non-empty hostname of the load-balancer list, if any. -/
def firstLBHostname : List LBIngress → Option String
  | [] => none
  | e :: rest =>
      if e.hostname ≠ "" then some e.hostname else firstLBHostname rest

/-- The last non-empty IP of the load-balancer list (each later non-empty IP
overwrites the remembered one), starting from accumulator `acc`. -/
def lastNonEmptyIP (acc : String) : List LBIngress → String
  | [] => acc
  | e :: rest => lastNonEmptyIP (if e.ip ≠ "" then e.ip else acc) rest

/-- `PortForm`: the numeric-or-named form of a backend port, used to compare
the emitted spec against the claimed port-resolution rule. -/
inductive PortForm where
  | number (n : Int)
  | name (s : String)
deriving DecidableEq

/-- The port form actually emitted by the builder: the (always numeric)
backend port of the first backend of the first rule. -/
def emittedPortForm (s : HTTPRouteSpec) : Option PortForm :=
  s.rules.head?.bind fun r =>
    r.backendRefs.head?.bind fun b => b.port.map PortForm.number

/-- The port form the spec's words claim: numeric when the integer
representation is positive, else named when the string representation is
non-empty. -/
def claimedPortForm (port : IntOrString) : Option PortForm :=
  if 0 < port.intVal then some (.number port.intVal)
  else if port.strVal ≠ "" then some (.name port.strVal)
  else none

/-! ### Concrete fixtures for witnesses -/

/-- A preferred-mode descriptor with an empty override and a stale AdminURL. -/
def readyCr : Grafana :=
  { name := "g", ns := "m", hasHttpRoute := true, preferIngress := true
    ingressOverride := .empty, labels := [], port := 3000
    status := { adminURL := "http://stale", invalidMergeIngress := none } }

/-- A live routing object whose load-balancer list is still empty. -/
def emptyLbRoute : HTTPRoute :=
  { name := "g-route", ns := "m", labels := [], owner := none
    spec := { hostnames := [], parentRefs := [], rules := [] }
    status := { loadBalancer := [] } }

/-- A live routing object whose load balancer reports a hostname. -/
def lbHostRoute : HTTPRoute :=
  { name := "g-route", ns := "m", labels := [], owner := none
    spec := { hostnames := [], parentRefs := [], rules := [] }
    status := { loadBalancer := [ { ip := "", hostname := "lb.example.com" } ] } }

/-- The object `emptyLbRoute` converges to under `readyCr`. -/
def convergedEmptyLb : HTTPRoute :=
  { name := "g-route", ns := "m", labels := [], owner := some "g"
    spec := getHttpRouteSpec readyCr
    status := { loadBalancer := [] } }

/-- The object `lbHostRoute` converges to under `readyCr`. -/
def convergedLbHost : HTTPRoute :=
  { name := "g-route", ns := "m", labels := [], owner := some "g"
    spec := getHttpRouteSpec readyCr
    status := { loadBalancer := [ { ip := "", hostname := "lb.example.com" } ] } }

/-- The InProgress outcome of reconciling `readyCr` against `emptyLbRoute`. -/
def inProgressOutcome : ReconcileOutcome :=
  { stage := .inProgress, errMsg := some "ingress is not ready yet"
    status := { adminURL := "http://stale", invalidMergeIngress := none }
    stored := some convergedEmptyLb, mutated := true }

/-- The Success outcome of reconciling `readyCr` against `lbHostRoute`. -/
def successOutcome : ReconcileOutcome :=
  { stage := .success, errMsg := none
    status := { adminURL := "http://lb.example.com", invalidMergeIngress := none }
    stored := some convergedLbHost, mutated := true }

/-- A descriptor carrying a compatible patch override and an inherited label. -/
def patchCr : Grafana :=
  { name := "g", ns := "m", hasHttpRoute := true, preferIngress := false
    ingressOverride := .patch (some ["apex.example.com"]) none
    labels := [("team", "obs")], port := 3000
    status := { adminURL := "", invalidMergeIngress := none } }

/-- The converged object for `patchCr` starting from the fresh object. -/
def convergedPatched : HTTPRoute :=
  { name := "g-route", ns := "m", labels := [("team", "obs")]
    owner := some "g"
    spec := { hostnames := ["apex.example.com"], parentRefs := []
              rules := (getHttpRouteSpec patchCr).rules }
    status := { loadBalancer := [] } }

/-! ## Helper lemmas -/

/-- String composition of the fixed protocol. -/
theorem http_protocol_append (h : String) :
    "http" ++ "://" ++ h = "http://" ++ h := by
  have hp : ("http" ++ "://" : String) = "http://" := by decide
  rw [hp]

/-- A hostname returned by the load-balancer hostname scan is non-empty. -/
theorem firstLBHostname_ne (l : List LBIngress) (h : String)
    (hf : firstLBHostname l = some h) : h ≠ "" := by
  induction l with
  | nil => simp [firstLBHostname] at hf
  | cons e rest ih =>
    by_cases he : e.hostname = ""
    · simp [firstLBHostname, he] at hf
      exact ih hf
    · simp [firstLBHostname, he] at hf
      subst hf
      exact he

/-- The load-balancer scan equals: first non-empty hostname if any, else the
last non-empty IP (falling back to the accumulator). -/
theorem scanLoadBalancer_eq (l : List LBIngress) (acc : String) :
    scanLoadBalancer acc l =
      match firstLBHostname l with
      | some h => h
      | none => lastNonEmptyIP acc l := by
  induction l generalizing acc with
  | nil => simp [scanLoadBalancer, firstLBHostname, lastNonEmptyIP]
  | cons e rest ih =>
    by_cases he : e.hostname = ""
    · simp only [scanLoadBalancer, firstLBHostname, lastNonEmptyIP, he,
        ne_eq, not_true_eq_false, ite_false]
      exact ih (if e.ip ≠ "" then e.ip else acc)
    · simp [scanLoadBalancer, firstLBHostname, he]

/-- A resolution with a non-empty explicit hostname composes the URL from that
hostname, whatever the gateway and load-balancer status hold. -/
theorem resolveWithGateway_hostname (gw : Gateway) (h : String)
    (rt : HTTPRoute) (hne : h ≠ "") :
    resolveWithGateway gw h rt = "http://" ++ h := by
  unfold resolveWithGateway
  simp only [hne, ite_false, if_neg, ite_true]
  simp [hne, http_protocol_append]

/-- With no explicit hostname and no usable gateway address, resolution is
decided by the load-balancer scan: first non-empty hostname, else the last
non-empty IP, else empty. -/
theorem resolveWithGateway_lb (gw : Gateway) (rt : HTTPRoute)
    (hgw : firstAddressValue gw.addresses = "") :
    resolveWithGateway gw "" rt =
      match firstLBHostname rt.status.loadBalancer with
      | some h => "http://" ++ h
      | none =>
        if lastNonEmptyIP "" rt.status.loadBalancer = "" then ""
        else "http://" ++ lastNonEmptyIP "" rt.status.loadBalancer := by
  unfold resolveWithGateway
  simp only [hgw, ite_true, ite_self, ne_eq, not_true_eq_false, ite_false]
  rw [scanLoadBalancer_eq]
  cases hfind : firstLBHostname rt.status.loadBalancer with
  | some h =>
    have hne := firstLBHostname_ne _ _ hfind
    simp [hne, http_protocol_append]
  | none =>
    by_cases hip : lastNonEmptyIP "" rt.status.loadBalancer = ""
    · simp [hip]
    · simp [hip, http_protocol_append]

/-- The final URL composition yields the empty string or a URL built from a
non-empty host. -/
theorem compose_shape (x : String) :
    (if x ≠ "" then "http" ++ "://" ++ x else "") = "" ∨
      ∃ h, h ≠ "" ∧
        (if x ≠ "" then "http" ++ "://" ++ x else "") = "http://" ++ h := by
  by_cases hx : x = ""
  · exact Or.inl (by simp [hx])
  · exact Or.inr ⟨x, hx, by simp [hx, http_protocol_append]⟩

/-- Every resolution outcome is empty or a URL composed from a non-empty
host. -/
theorem resolveWithGateway_shape (gw : Gateway) (h0 : String)
    (rt : HTTPRoute) :
    resolveWithGateway gw h0 rt = "" ∨
      ∃ h, h ≠ "" ∧ resolveWithGateway gw h0 rt = "http://" ++ h := by
  unfold resolveWithGateway
  dsimp only
  exact compose_shape _

/-- Inheriting the descriptor's labels twice is the same as inheriting them
once. -/
theorem setInheritedLabels_idem (objLabels crLabels : List (String × String)) :
    setInheritedLabels (setInheritedLabels objLabels crLabels) crLabels =
      setInheritedLabels objLabels crLabels := by
  unfold setInheritedLabels
  rw [List.filter_append]
  have h1 : crLabels.filter
      (fun kv => decide (kv.1 ∉ crLabels.map Prod.fst)) = [] := by
    apply List.filter_eq_nil_iff.mpr
    intro kv hkv
    simp [List.mem_map_of_mem Prod.fst hkv]
  have h2 : (objLabels.filter
        (fun kv => decide (kv.1 ∉ crLabels.map Prod.fst))).filter
        (fun kv => decide (kv.1 ∉ crLabels.map Prod.fst)) =
      objLabels.filter (fun kv => decide (kv.1 ∉ crLabels.map Prod.fst)) := by
    rw [List.filter_filter]
    simp
  rw [h1, h2, List.nil_append]

/-- The mutation closure is idempotent: applied to its own output it
reproduces that output. -/
theorem mutateHttpRoute_idem (cr : Grafana) (base o : HTTPRoute)
    (h : mutateHttpRoute cr base = .ok o) : mutateHttpRoute cr o = .ok o := by
  unfold mutateHttpRoute at h ⊢
  cases hov : cr.ingressOverride with
  | empty =>
    rw [hov] at h
    simp only [Merge, Except.ok.injEq] at h
    subst h
    simp [Merge, setInheritedLabels_idem]
  | patch hs prs =>
    rw [hov] at h
    simp only [Merge, Except.ok.injEq] at h
    subst h
    simp [Merge, setInheritedLabels_idem]
  | incompatible msg =>
    rw [hov] at h
    simp [Merge] at h

/-! ## Claim theorems -/

/-- C1 (counterexample): with no hostname anywhere and a load-balancer list
carrying two non-empty IPs, the code resolves to the *last* IP
(`loadBalancerIP` is overwritten on every non-empty IP), not the first as the
claim states. -/
theorem lb_first_ip_cex :
    getHttpRouteAdminURL (fun _ _ => Except.error ())
        (some { name := "grafana-route", ns := "monitoring", labels := []
                owner := none
                spec := { hostnames := [], parentRefs := [], rules := [] }
                status := { loadBalancer :=
                  [ { ip := "10.0.0.1", hostname := "" },
                    { ip := "10.0.0.2", hostname := "" } ] } }) =
      some "http://10.0.0.2" ∧
    ("http://10.0.0.2" : String) ≠ "http://10.0.0.1" := by
  exact ⟨rfl, by decide⟩

/-- C1 (amended): with no explicit hostname and no usable parent address, the
resolution is decided by the load-balancer scan — the first non-empty
hostname wins (even after earlier IP-only entries), and if no entry has a
hostname the host is the *last* non-empty IP in the list. -/
theorem lb_scan_resolution (store : GwStore) (rt : HTTPRoute)
    (h1 : firstHostname rt.spec.hostnames = "")
    (h2 : rt.spec.parentRefs = [] ∨
          ∃ pr prs ns gw, rt.spec.parentRefs = pr :: prs ∧ pr.ns = some ns ∧
            store ns pr.name = .ok gw ∧ firstAddressValue gw.addresses = "") :
    getHttpRouteAdminURL store (some rt) =
      some (match firstLBHostname rt.status.loadBalancer with
            | some h => "http://" ++ h
            | none =>
              if lastNonEmptyIP "" rt.status.loadBalancer = "" then ""
              else "http://" ++ lastNonEmptyIP "" rt.status.loadBalancer) := by
  unfold getHttpRouteAdminURL
  dsimp only
  rcases h2 with h2 | ⟨pr, prs, nsv, gw, hpr, hns, hst, hgw⟩
  · simp only [h2, h1]
    rw [resolveWithGateway_lb emptyGateway rt rfl]
  · simp only [hpr, hns, hst, h1]
    rw [resolveWithGateway_lb gw rt hgw]

/-- C1 (witness): the spec's concrete case — load-balancer list
`[{IP:"10.0.0.1"}, {Hostname:"lb.example.com"}]`, no hostname, no parent —
resolves to `"http://lb.example.com"`. -/
theorem lb_scan_resolution_witness :
    getHttpRouteAdminURL (fun _ _ => Except.error ())
        (some { name := "grafana-route", ns := "monitoring", labels := []
                owner := none
                spec := { hostnames := [], parentRefs := [], rules := [] }
                status := { loadBalancer :=
                  [ { ip := "10.0.0.1", hostname := "" },
                    { ip := "", hostname := "lb.example.com" } ] } }) =
      some "http://lb.example.com" := by
  have h := lb_scan_resolution (fun _ _ => Except.error ())
      { name := "grafana-route", ns := "monitoring", labels := []
        owner := none
        spec := { hostnames := [], parentRefs := [], rules := [] }
        status := { loadBalancer :=
          [ { ip := "10.0.0.1", hostname := "" },
            { ip := "", hostname := "lb.example.com" } ] } }
      rfl (Or.inl rfl)
  exact h.trans (by decide)

/-- C2 (counterexample): an explicit hostname does *not* make the resolved URL
independent of the parent fetch — the gateway is fetched whenever the
parent-reference list is non-empty, and a fetch failure yields the empty URL
even though the explicit hostname `"grafana.example.com"` is present. -/
theorem explicit_hostname_cex :
    getHttpRouteAdminURL (fun _ _ => Except.error ())
        (some { name := "grafana-route", ns := "monitoring", labels := []
                owner := none
                spec := { hostnames := ["grafana.example.com"]
                          parentRefs := [ { ns := some "gw-ns", name := "gw" } ]
                          rules := [] }
                status := { loadBalancer := [] } }) =
      some "" ∧
    (some "" : Option String) ≠ some "http://grafana.example.com" := by
  exact ⟨rfl, by decide⟩

/-- C2 (amended): the first entry of a non-empty hostnames list is the
resolved host, but the parent (gateway) lookup is performed whenever the
parent-reference list is non-empty — not only when no hostname is declared —
so the explicit hostname yields the URL only when there is no parent
reference or the parent fetch succeeds. -/
theorem explicit_hostname_resolution (store : GwStore) (rt : HTTPRoute)
    (h : String) (rest : List String)
    (hh : rt.spec.hostnames = h :: rest) (hne : h ≠ "") :
    (rt.spec.parentRefs = [] →
        getHttpRouteAdminURL store (some rt) = some ("http://" ++ h)) ∧
    (∀ pr prs nsv gw, rt.spec.parentRefs = pr :: prs → pr.ns = some nsv →
        store nsv pr.name = .ok gw →
        getHttpRouteAdminURL store (some rt) = some ("http://" ++ h)) := by
  constructor
  · intro hpr
    unfold getHttpRouteAdminURL
    dsimp only
    simp only [hpr, hh, firstHostname]
    rw [resolveWithGateway_hostname emptyGateway h rt hne]
  · intro pr prs nsv gw hpr hns hst
    unfold getHttpRouteAdminURL
    dsimp only
    simp only [hpr, hh, firstHostname, hns, hst]
    rw [resolveWithGateway_hostname gw h rt hne]

/-- C2 (witness): with hostname `"grafana.example.com"`, a parent reference
and a successful gateway fetch, the resolved URL is the explicit hostname's. -/
theorem explicit_hostname_resolution_witness :
    getHttpRouteAdminURL (fun _ _ => Except.ok { addresses := [] })
        (some { name := "grafana-route", ns := "monitoring", labels := []
                owner := none
                spec := { hostnames := ["grafana.example.com"]
                          parentRefs := [ { ns := some "gw-ns", name := "gw" } ]
                          rules := [] }
                status := { loadBalancer := [] } }) =
      some "http://grafana.example.com" := by
  have h := (explicit_hostname_resolution
      (fun _ _ => Except.ok { addresses := [] })
      { name := "grafana-route", ns := "monitoring", labels := []
        owner := none
        spec := { hostnames := ["grafana.example.com"]
                  parentRefs := [ { ns := some "gw-ns", name := "gw" } ]
                  rules := [] }
        status := { loadBalancer := [] } }
      "grafana.example.com" [] rfl (by decide)).2
      { ns := some "gw-ns", name := "gw" } [] "gw-ns" { addresses := [] }
      rfl rfl rfl
  exact h.trans (by decide)

/-- C3 (counterexample): a parent fetch failure is *not* propagated out of
endpoint resolution — the resolver has no error channel and returns the empty
string (indistinguishable from "no host found"), here even though an explicit
hostname is declared. -/
theorem fetch_failure_cex :
    getHttpRouteAdminURL (fun _ _ => Except.error ())
        (some { name := "grafana-route", ns := "monitoring", labels := []
                owner := none
                spec := { hostnames := ["lb.example.com"]
                          parentRefs := [ { ns := some "gw-ns", name := "gw" } ]
                          rules := [] }
                status := { loadBalancer :=
                  [ { ip := "10.0.0.1", hostname := "" } ] } }) =
      some "" := by
  exact rfl

/-- C3 (amended): when the first parent reference carries a namespace and the
store fetch of the parent fails, endpoint resolution returns the empty string
— the error is logged and swallowed, not propagated. -/
theorem fetch_failure_empty_url (store : GwStore) (rt : HTTPRoute)
    (pr : ParentRef) (prs : List ParentRef) (nsv : String)
    (h1 : rt.spec.parentRefs = pr :: prs) (h2 : pr.ns = some nsv)
    (h3 : store nsv pr.name = .error ()) :
    getHttpRouteAdminURL store (some rt) = some "" := by
  unfold getHttpRouteAdminURL
  dsimp only
  simp only [h1, h2, h3]

/-- C3 (witness): a concrete failing fetch yields the empty resolved URL. -/
theorem fetch_failure_empty_url_witness :
    getHttpRouteAdminURL (fun _ _ => Except.error ())
        (some { name := "grafana-route", ns := "monitoring", labels := []
                owner := none
                spec := { hostnames := []
                          parentRefs := [ { ns := some "gw-ns", name := "gw" } ]
                          rules := [] }
                status := { loadBalancer := [] } }) =
      some "" := by
  exact fetch_failure_empty_url (fun _ _ => Except.error ())
    { name := "grafana-route", ns := "monitoring", labels := []
      owner := none
      spec := { hostnames := []
                parentRefs := [ { ns := some "gw-ns", name := "gw" } ]
                rules := [] }
      status := { loadBalancer := [] } }
    { ns := some "gw-ns", name := "gw" } [] "gw-ns" rfl rfl rfl

/-- C8 (confirmed): every resolution result is either the panic (`none`), the
empty string, or `"http://<host>"` for a non-empty host — in particular no
broken URL `"http://"` with an empty host is ever produced, and an empty
result is not an error (the resolver has no error channel at all). -/
theorem admin_url_shape (store : GwStore) (route : Option HTTPRoute) :
    getHttpRouteAdminURL store route = none ∨
    getHttpRouteAdminURL store route = some "" ∨
    ∃ h, h ≠ "" ∧ getHttpRouteAdminURL store route = some ("http://" ++ h) := by
  match route with
  | none => exact Or.inr (Or.inl rfl)
  | some rt =>
    unfold getHttpRouteAdminURL
    dsimp only
    cases hpr : rt.spec.parentRefs with
    | nil =>
      simp only [hpr]
      rcases resolveWithGateway_shape emptyGateway
          (firstHostname rt.spec.hostnames) rt with hsh | ⟨h, hne, hsh⟩
      · exact Or.inr (Or.inl (by rw [hsh]))
      · exact Or.inr (Or.inr ⟨h, hne, by rw [hsh]⟩)
    | cons pr prs =>
      simp only [hpr]
      cases hns : pr.ns with
      | none => exact Or.inl rfl
      | some nsv =>
        simp only [hns]
        cases hst : store nsv pr.name with
        | error e => exact Or.inr (Or.inl (by simp [hst]))
        | ok gw =>
          simp only [hst]
          rcases resolveWithGateway_shape gw
              (firstHostname rt.spec.hostnames) rt with hsh | ⟨h, hne, hsh⟩
          · exact Or.inr (Or.inl (by rw [hsh]))
          · exact Or.inr (Or.inr ⟨h, hne, by rw [hsh]⟩)

/-- C10 (confirmed): endpoint resolution panics (dereferences the nil
namespace pointer) exactly when the parent-reference list is non-empty and
its first entry carries no namespace; under the precondition it is total. -/
theorem resolver_nil_namespace (store : GwStore) (rt : HTTPRoute) :
    getHttpRouteAdminURL store (some rt) = none ↔
      ∃ pr prs, rt.spec.parentRefs = pr :: prs ∧ pr.ns = none := by
  unfold getHttpRouteAdminURL
  cases hpr : rt.spec.parentRefs with
  | nil => simp [hpr]
  | cons pr prs =>
    cases hns : pr.ns with
    | none => simp [hpr, hns]
    | some nsv =>
      cases hst : store nsv pr.name with
      | error e => simp [hpr, hns, hst]
      | ok gw => simp [hpr, hns, hst]

/-- C7 (counterexample): for the valid named port `"web"` (integer
representation 0, name non-empty), the claimed resolution is the named form,
but the emitted backend port is the numeric `PortNumber(IntValue("web"))= 0`;
the numeric-else-named `assignedPort` value is computed but unused. -/
theorem spec_builder_port_cex :
    IntOrString.intVal (.str "web") ≤ 0 ∧
    IntOrString.strVal (.str "web") ≠ "" ∧
    claimedPortForm (.str "web") = some (.name "web") ∧
    assignedBackendPort (.str "web") = { number := 0, name := "web" } ∧
    emittedPortForm
        (buildRouteSpec "grafana-service" "monitoring" (.str "web")) =
      some (.number 0) ∧
    (some (PortForm.number 0) : Option PortForm) ≠ some (.name "web") := by
  refine ⟨by decide, by decide, by decide, by decide, by decide, by decide⟩

/-- C7 (amended): the Spec Builder is total and always emits exactly one rule
with exactly one backend reference and a single prefix path match at `"/"`;
the backend port is always the numeric `PortNumber(IntValue(port))` — never
the named form, whatever the input's port form. -/
theorem spec_builder_shape (n nsv : String) (p : IntOrString) :
    (buildRouteSpec n nsv p).rules =
      [ { backendRefs :=
            [ { name := n, ns := nsv, port := some p.intValue } ]
          routeMatches :=
            [ { path := some { matchType := .prefixPath, value := "/" } } ] } ] ∧
    emittedPortForm (buildRouteSpec n nsv p) = some (.number p.intValue) ∧
    (buildRouteSpec n nsv p).rules.length = 1 :=
  ⟨rfl, rfl, rfl⟩

/-- C5 (confirmed): a structurally incompatible override makes the reconcile
return Failed with the merge error, sets the InvalidMerge condition with the
error text on the descriptor, and persists nothing (the stored object is the
unchanged live object). -/
theorem merge_failure_reconcile (store : GwStore) (cr : Grafana)
    (live : Option HTTPRoute) (msg : String)
    (h1 : cr.hasHttpRoute = true)
    (h2 : cr.ingressOverride = .incompatible msg) :
    reconcileIngress store cr live =
      some { stage := .failed, errMsg := some msg
             status := setInvalidMergeCondition cr.status msg
             stored := live, mutated := false } := by
  unfold reconcileIngress createOrUpdate mutateHttpRoute
  cases live <;> simp [h1, h2, Merge, Except.map]

/-- C5 (witness): a concrete incompatible override fragment. -/
theorem merge_failure_reconcile_witness :
    reconcileIngress (fun _ _ => Except.error ())
        { name := "grafana", ns := "monitoring", hasHttpRoute := true
          preferIngress := true
          ingressOverride := .incompatible "unknown field on target schema"
          labels := [], port := 3000
          status := { adminURL := "http://old", invalidMergeIngress := none } }
        (some { name := "grafana-route", ns := "monitoring", labels := []
                owner := some "grafana"
                spec := { hostnames := [], parentRefs := [], rules := [] }
                status := { loadBalancer := [] } }) =
      some { stage := .failed
             errMsg := some "unknown field on target schema"
             status := setInvalidMergeCondition
               { adminURL := "http://old", invalidMergeIngress := none }
               "unknown field on target schema"
             stored := some { name := "grafana-route", ns := "monitoring"
                              labels := [], owner := some "grafana"
                              spec := { hostnames := [], parentRefs := []
                                        rules := [] }
                              status := { loadBalancer := [] } }
             mutated := false } := by
  exact merge_failure_reconcile (fun _ _ => Except.error ())
    { name := "grafana", ns := "monitoring", hasHttpRoute := true
      preferIngress := true
      ingressOverride := .incompatible "unknown field on target schema"
      labels := [], port := 3000
      status := { adminURL := "http://old", invalidMergeIngress := none } }
    (some { name := "grafana-route", ns := "monitoring", labels := []
            owner := some "grafana"
            spec := { hostnames := [], parentRefs := [], rules := [] }
            status := { loadBalancer := [] } })
    "unknown field on target schema" rfl rfl

/-- C4 (confirmed): in preferred mode with a successful converge, the reconcile
reports InProgress exactly when the routing object's load-balancer list is
empty (with the non-empty "not ready" message and the AdminURL unchanged), and
Failed exactly when the list is populated but the resolved URL is empty. -/
theorem readiness_stage (store : GwStore) (cr : Grafana)
    (live : Option HTTPRoute) (m : Bool) (obj : HTTPRoute) (url : String)
    (out : ReconcileOutcome)
    (h0 : cr.hasHttpRoute = true)
    (h1 : cr.preferIngress = true)
    (h2 : createOrUpdate live (GetGrafanaHttpRoute cr) (mutateHttpRoute cr) =
      .ok { mutated := m, stored := obj })
    (h3 : getHttpRouteAdminURL store (some obj) = some url)
    (h4 : reconcileIngress store cr live = some out) :
    (out.stage = .inProgress ↔ obj.status.loadBalancer = []) ∧
    (obj.status.loadBalancer = [] →
        out.errMsg = some "ingress is not ready yet" ∧
        out.status.adminURL = cr.status.adminURL) ∧
    (out.stage = .failed ↔ (obj.status.loadBalancer ≠ [] ∧ url = "")) := by
  unfold reconcileIngress at h4
  rw [h2] at h4
  simp only [h0, h1] at h4
  simp only [Bool.true_eq_false, if_false] at h4
  simp only [h3] at h4
  by_cases hlb : obj.status.loadBalancer = []
  · rw [if_pos hlb] at h4
    have h5 := Option.some.inj h4
    subst h5
    refine ⟨by simp [hlb], fun _ => ⟨rfl, by simp [removeInvalidMergeCondition]⟩,
      by simp [hlb]⟩
  · rw [if_neg hlb] at h4
    by_cases hurl : url = ""
    · rw [if_pos hurl] at h4
      have h5 := Option.some.inj h4
      subst h5
      exact ⟨by simp [hlb], fun h => absurd h hlb, by simp [hlb, hurl]⟩
    · rw [if_neg hurl] at h4
      have h5 := Option.some.inj h4
      subst h5
      exact ⟨by simp [hlb], fun h => absurd h hlb, by simp [hlb, hurl]⟩

/-- C6 (counterexample): a reconcile completing with Success when this
exposure mode is *not* preferred does not write the resolved URL: the stale
AdminURL stays although resolution over the stored object yields
`"http://lb.example.com"`. -/
theorem success_adminURL_cex :
    ((reconcileIngress (fun _ _ => Except.error ())
        { name := "g", ns := "m", hasHttpRoute := true
          preferIngress := false, ingressOverride := .empty
          labels := [], port := 3000
          status := { adminURL := "http://stale"
                      invalidMergeIngress := none } }
        (some { name := "g-route", ns := "m", labels := [], owner := none
                spec := { hostnames := [], parentRefs := [], rules := [] }
                status := { loadBalancer :=
                  [ { ip := "", hostname := "lb.example.com" } ] } })).map
      (fun o => (o.stage, o.status.adminURL))) =
      some (.success, "http://stale") ∧
    ((reconcileIngress (fun _ _ => Except.error ())
        { name := "g", ns := "m", hasHttpRoute := true
          preferIngress := false, ingressOverride := .empty
          labels := [], port := 3000
          status := { adminURL := "http://stale"
                      invalidMergeIngress := none } }
        (some { name := "g-route", ns := "m", labels := [], owner := none
                spec := { hostnames := [], parentRefs := [], rules := [] }
                status := { loadBalancer :=
                  [ { ip := "", hostname := "lb.example.com" } ] } })).bind
      (fun o => getHttpRouteAdminURL (fun _ _ => Except.error ()) o.stored)) =
      some "http://lb.example.com" ∧
    ("http://stale" : String) ≠ "http://lb.example.com" := by
  refine ⟨rfl, rfl, by decide⟩

/-- C6 (amended): on Success in preferred mode the (necessarily non-empty)
resolved URL is written into the descriptor's status AdminURL; when this
exposure mode is not preferred the reconcile succeeds without touching
AdminURL at all. -/
theorem success_adminURL (store : GwStore) (cr : Grafana)
    (live : Option HTTPRoute) (m : Bool) (obj : HTTPRoute) (url : String)
    (out : ReconcileOutcome)
    (h0 : cr.hasHttpRoute = true)
    (h2 : createOrUpdate live (GetGrafanaHttpRoute cr) (mutateHttpRoute cr) =
      .ok { mutated := m, stored := obj })
    (h3 : getHttpRouteAdminURL store (some obj) = some url)
    (h4 : reconcileIngress store cr live = some out) :
    (cr.preferIngress = true → out.stage = .success →
        out.status.adminURL = url ∧ url ≠ "") ∧
    (cr.preferIngress = false →
        out.stage = .success ∧ out.status.adminURL = cr.status.adminURL) := by
  unfold reconcileIngress at h4
  rw [h2] at h4
  simp only [h0, Bool.true_eq_false, if_false] at h4
  cases hpref : cr.preferIngress with
  | false =>
    rw [hpref] at h4
    simp only [Bool.false_eq_true, if_false] at h4
    have h5 := Option.some.inj h4
    subst h5
    exact ⟨fun hc => absurd hc (by simp), fun _ =>
      ⟨rfl, by simp [removeInvalidMergeCondition]⟩⟩
  | true =>
    rw [hpref] at h4
    simp only [if_true] at h4
    simp only [h3] at h4
    by_cases hlb : obj.status.loadBalancer = []
    · rw [if_pos hlb] at h4
      have h5 := Option.some.inj h4
      subst h5
      exact ⟨fun _ hc => absurd hc (by simp), fun hc => absurd hc (by simp)⟩
    · rw [if_neg hlb] at h4
      by_cases hurl : url = ""
      · rw [if_pos hurl] at h4
        have h5 := Option.some.inj h4
        subst h5
        exact ⟨fun _ hc => absurd hc (by simp), fun hc => absurd hc (by simp)⟩
      · rw [if_neg hurl] at h4
        have h5 := Option.some.inj h4
        subst h5
        exact ⟨fun _ _ => ⟨rfl, hurl⟩, fun hc => absurd hc (by simp)⟩

/-- C9 (confirmed): the upsert's mutation function applied to an
already-converged object reproduces it, so a second reconcile with unchanged
inputs performs no update (`mutated = false`). -/
theorem converge_idempotent (store : GwStore) (cr : Grafana)
    (base o : HTTPRoute)
    (h : mutateHttpRoute cr base = .ok o) :
    mutateHttpRoute cr o = .ok o ∧
    ∀ out, reconcileIngress store cr (some o) = some out →
      out.mutated = false := by
  have hidem := mutateHttpRoute_idem cr base o h
  refine ⟨hidem, ?_⟩
  intro out hout
  unfold reconcileIngress at hout
  by_cases hhr : cr.hasHttpRoute = false
  · rw [if_pos hhr] at hout
    have h5 := Option.some.inj hout
    subst h5
    rfl
  · rw [if_neg hhr] at hout
    have hco : createOrUpdate (some o) (GetGrafanaHttpRoute cr)
        (mutateHttpRoute cr) = .ok { mutated := false, stored := o } := by
      unfold createOrUpdate
      dsimp only
      rw [hidem]
      simp [Except.map]
    rw [hco] at hout
    dsimp only at hout
    by_cases hpref : cr.preferIngress = true
    · rw [if_pos hpref] at hout
      cases hres : getHttpRouteAdminURL store (some o) with
      | none =>
        rw [hres] at hout
        dsimp only at hout
        cases hout
      | some url =>
        rw [hres] at hout
        dsimp only at hout
        by_cases hlb : o.status.loadBalancer = []
        · rw [if_pos hlb] at hout
          have h5 := Option.some.inj hout
          subst h5
          rfl
        · rw [if_neg hlb] at hout
          by_cases hurl : url = ""
          · rw [if_pos hurl] at hout
            have h5 := Option.some.inj hout
            subst h5
            rfl
          · rw [if_neg hurl] at hout
            have h5 := Option.some.inj hout
            subst h5
            rfl
    · rw [if_neg hpref] at hout
      have h5 := Option.some.inj hout
      subst h5
      rfl

/-- C4 (witness): the spec's concrete case — empty load-balancer status in
preferred mode gives InProgress, a non-empty "not ready" message, and an
unchanged AdminURL. -/
theorem readiness_stage_witness :
    inProgressOutcome.stage = OperatorStageResult.inProgress ∧
    inProgressOutcome.errMsg = some "ingress is not ready yet" ∧
    inProgressOutcome.status.adminURL = readyCr.status.adminURL := by
  have hthm := readiness_stage (fun _ _ => Except.error ()) readyCr
    (some emptyLbRoute) true convergedEmptyLb "" inProgressOutcome
    rfl rfl rfl rfl rfl
  exact ⟨hthm.1.mpr rfl, (hthm.2.1 rfl).1, (hthm.2.1 rfl).2⟩

/-- C6 (witness): a Success in preferred mode writes the non-empty resolved
URL into the descriptor's AdminURL. -/
theorem success_adminURL_witness :
    successOutcome.status.adminURL = "http://lb.example.com" ∧
    ("http://lb.example.com" : String) ≠ "" := by
  have hthm := success_adminURL (fun _ _ => Except.error ()) readyCr
    (some lbHostRoute) true convergedLbHost "http://lb.example.com"
    successOutcome rfl rfl (by decide) (by decide)
  exact hthm.1 rfl rfl

/-- C9 (witness): the mutation function for a concrete descriptor with a
patch override and inherited labels fixes its own converged output. -/
theorem converge_idempotent_witness :
    mutateHttpRoute patchCr convergedPatched = Except.ok convergedPatched := by
  exact (converge_idempotent (fun _ _ => Except.error ()) patchCr
    (GetGrafanaHttpRoute patchCr) convergedPatched rfl).1

end GrafanaOperator
